import Mathlib

/-!
Verification of the DUPR API client request/response/error-mapping pipeline.

The repository source under src/ contains only the test suite and usage
examples of the dupr_api package; the package itself (dupr_api/client.py,
dupr_api/exceptions.py and the namespace modules) is not present. The
definitions below therefore model the missing client/executor code from the
specification, and the tests in src/tests corroborate the modelling.
-/

namespace DuprApi

/-- Modelled from the spec: JSON values, the wire format of request bodies and
response payloads (dupr_api/client.py is missing from src/). Numbers are
modelled as integers, which covers every payload the tests exercise. -/
inductive Json where
  | null : Json
  | bool (b : Bool) : Json
  | num (n : Int) : Json
  | str (s : String) : Json
  | arr (elems : List Json) : Json
  | obj (fields : List (String × Json)) : Json

/-- Modelled from the spec: the four HTTP methods the Executor supports
(GET/POST/PUT/DELETE), per section 4.2 of the spec. -/
inductive Method where
  | GET : Method
  | POST : Method
  | PUT : Method
  | DELETE : Method
deriving DecidableEq, Repr

/-- Modelled from the spec: the client configuration record of dupr_api.DUPRClient
(missing from src/): bearer token (optional, replaceable), base endpoint origin,
default API version string and timeout duration. The transport session holds no
data relevant to the pipeline and is not modelled. -/
structure DUPRClient where
  bearer_token : Option String
  base_url : String
  version : String
  timeout : Nat
deriving DecidableEq, Repr

/-- Modelled from the spec: client construction with the documented defaults
(base origin https://backend.mydupr.com, version v1.0, timeout 30 seconds),
taking only the optional bearer token, as exercised by
test_client_initialization. -/
def DUPRClient.init (bearer_token : Option String) : DUPRClient :=
  { bearer_token := bearer_token
    base_url := "https://backend.mydupr.com"
    version := "v1.0"
    timeout := 30 }

/-- Modelled from the spec: DUPRClient.set_bearer_token, the explicit setter
that replaces the token at runtime, taking effect on the next call. State is
passed explicitly, so the setter returns the updated client. -/
def DUPRClient.set_bearer_token (c : DUPRClient) (token : String) : DUPRClient :=
  { c with bearer_token := some token }

/-- Modelled from the spec: DUPRClient.get_headers. Headers always include
Content-Type and Accept as application/json; Authorization is added only when
a bearer token is currently configured, as Bearer followed by the token. -/
def DUPRClient.get_headers (c : DUPRClient) : List (String × String) :=
  let base := [("Content-Type", "application/json"), ("Accept", "application/json")]
  match c.bearer_token with
  | some token => base ++ [("Authorization", "Bearer " ++ token)]
  | none => base

/-- Modelled from the spec: the kind of a raised error. The generic kind stands
for an instance of the umbrella DUPRAPIError base class itself; the others are
its status-specific subtypes from dupr_api.exceptions (missing from src/). -/
inductive ErrorKind where
  | authentication : ErrorKind
  | validation : ErrorKind
  | notFound : ErrorKind
  | rateLimit : ErrorKind
  | server : ErrorKind
  | generic : ErrorKind
deriving DecidableEq, Repr

/-- Modelled from the spec: the error taxonomy of dupr_api.exceptions (missing
from src/): every error carries a human-readable message, the HTTP status code
when applicable, and the raw response body when available. -/
structure APIError where
  kind : ErrorKind
  message : String
  status_code : Option Nat
  response_body : Option String
deriving DecidableEq, Repr

/-- Modelled from the spec: the body of an HTTP response as the pipeline sees
it: empty, decodable JSON, or non-empty text that is not valid JSON. -/
inductive ResponseBody where
  | empty : ResponseBody
  | jsonBody (j : Json) : ResponseBody
  | invalid (raw : String) : ResponseBody

/-- Modelled from the spec: an HTTP response delivered by the transport:
a numeric status code, the body, and the raw response text. -/
structure HttpResponse where
  status : Nat
  body : ResponseBody
  text : String

/-- Modelled from the spec: the outcome of one transport attempt — a
connection-level failure, a transport timeout, or an HTTP response. -/
inductive TransportOutcome where
  | connectionFailure (cause : String) : TransportOutcome
  | timeoutFailure (cause : String) : TransportOutcome
  | response (resp : HttpResponse) : TransportOutcome

/-- Modelled from the spec: the request descriptor built fresh for each call:
method, resolved URL, header mapping, optional query parameters, optional JSON
body and the timeout passed to the transport. -/
structure Request where
  method : Method
  url : String
  headers : List (String × String)
  params : Option (List (String × Json))
  json : Option Json
  timeout : Nat

/-- Modelled from the spec: outcome classification of an HTTP response, in the
order given in section 4.2: 401, 400, 404, 429, status at least 500, any other
non-2xx status, then 2xx with empty body as an empty mapping, 2xx with a JSON
body as the parsed structure, and a 2xx body that is not valid JSON as a
generic decoding error. -/
def classifyResponse (resp : HttpResponse) : Except APIError Json :=
  if resp.status = 401 then
    .error ⟨.authentication, "Authentication failed: " ++ resp.text,
      some resp.status, some resp.text⟩
  else if resp.status = 400 then
    .error ⟨.validation, "Validation error: " ++ resp.text,
      some resp.status, some resp.text⟩
  else if resp.status = 404 then
    .error ⟨.notFound, "Resource not found: " ++ resp.text,
      some resp.status, some resp.text⟩
  else if resp.status = 429 then
    .error ⟨.rateLimit, "Rate limit exceeded: " ++ resp.text,
      some resp.status, some resp.text⟩
  else if resp.status ≥ 500 then
    .error ⟨.server, "Server error: " ++ resp.text,
      some resp.status, some resp.text⟩
  else if resp.status < 200 ∨ resp.status ≥ 300 then
    .error ⟨.generic, "API error: " ++ resp.text,
      some resp.status, some resp.text⟩
  else
    match resp.body with
    | .empty => .ok (.obj [])
    | .jsonBody j => .ok j
    | .invalid raw =>
        .error ⟨.generic, "Invalid JSON response: " ++ raw,
          some resp.status, some resp.text⟩

/-- Modelled from the spec: the result of one execution of the pipeline: the
request descriptor that was sent, the classified outcome (decoded payload or
one typed error), and the client state after the call. -/
structure ExecResult where
  request : Request
  outcome : Except APIError Json
  client_after : DUPRClient

/-- Modelled from the spec: DUPRClient request execution (the Request
Executor, missing from src/). The URL is the base origin concatenated with the
path, whose version segment is the per-call override when supplied and the
configured version otherwise; headers are built from the current token; the
transport outcome is classified per section 4.2: transport connection failure
and transport timeout become generic umbrella errors with no status code, and
an HTTP response goes through status classification and JSON decoding. The
path is given as a template taking the resolved version segment. -/
def DUPRClient.execute (c : DUPRClient) (method : Method)
    (pathTemplate : String → String) (query : Option (List (String × Json)))
    (json_body : Option Json) (version_override : Option String)
    (transport : TransportOutcome) : ExecResult :=
  let resolvedVersion := version_override.getD c.version
  let url := c.base_url ++ pathTemplate resolvedVersion
  let req : Request :=
    { method := method, url := url, headers := c.get_headers,
      params := query, json := json_body, timeout := c.timeout }
  let outcome : Except APIError Json :=
    match transport with
    | .connectionFailure cause =>
        .error ⟨.generic, "Connection error: " ++ cause, none, none⟩
    | .timeoutFailure cause =>
        .error ⟨.generic, "Request timeout: " ++ cause, none, none⟩
    | .response resp => classifyResponse resp
  ⟨req, outcome, c⟩

/-- Modelled from the spec: execution against a stream of prepared transport
outcomes, one outcome per attempt the Executor could make. A call consumes the
outcomes its attempts use and returns the unconsumed rest; the Executor makes
exactly one attempt, so it consumes exactly the head. -/
def DUPRClient.executeStream (c : DUPRClient) (method : Method)
    (pathTemplate : String → String) (query : Option (List (String × Json)))
    (json_body : Option Json) (version_override : Option String) :
    List TransportOutcome → Option ExecResult × List TransportOutcome
  | [] => (none, [])
  | o :: rest => (some (c.execute method pathTemplate query json_body version_override o), rest)

/-- Modelled from the spec: the path template of the user profile endpoint,
/user/(version)/profile. -/
def userProfilePath (v : String) : String :=
  "/user/" ++ v ++ "/profile"

/-- Modelled from the spec: the path template of the match search endpoint,
/match/(version)/search. -/
def matchSearchPath (v : String) : String :=
  "/match/" ++ v ++ "/search"

/-- Modelled from the spec: UserAPI.get_profile — a thin namespace operation
delegating a GET on /user/(version)/profile to the Executor and returning its
result unchanged. -/
def get_profile (c : DUPRClient) (version : Option String)
    (transport : TransportOutcome) : ExecResult :=
  c.execute .GET userProfilePath none none version transport

/-- Modelled from the spec: the JSON body assembled by
MatchesAPI.search_matches: playerId, clubId and eventId are included only when
supplied; limit and offset are always included. Field names follow the remote
service exactly. -/
def searchMatchesBody (player_id club_id event_id : Option Int)
    (limit offset : Int) : List (String × Json) :=
  (match player_id with | some p => [("playerId", Json.num p)] | none => []) ++
  (match club_id with | some cl => [("clubId", Json.num cl)] | none => []) ++
  (match event_id with | some e => [("eventId", Json.num e)] | none => []) ++
  [("limit", Json.num limit), ("offset", Json.num offset)]

/-- Modelled from the spec: MatchesAPI.search_matches — assembles the search
body and delegates a POST on /match/(version)/search to the Executor,
returning its result unchanged. -/
def search_matches (c : DUPRClient) (player_id club_id event_id : Option Int)
    (limit offset : Int) (version : Option String)
    (transport : TransportOutcome) : ExecResult :=
  c.execute .POST matchSearchPath none
    (some (.obj (searchMatchesBody player_id club_id event_id limit offset)))
    version transport

/-- Error information extracted from a classified outcome: the kind, status
code and raw response body of the raised error, or none on success. -/
def errInfo : Except APIError Json → Option (ErrorKind × Option Nat × Option String)
  | .error e => some (e.kind, e.status_code, e.response_body)
  | .ok _ => none

/-- Lower-cased character data of a string, used to state case-insensitive
substring containment. -/
def lowerData (s : String) : List Char :=
  s.data.map Char.toLower

theorem data_infix_append (t l r : List Char) (h : t <:+: l) : t <:+: l ++ r := by
  obtain ⟨s, e, he⟩ := h
  exact ⟨s, e ++ r, by rw [← he]; simp⟩

theorem string_data_append (s t : String) : (s ++ t).data = s.data ++ t.data := rfl

theorem lowerData_append (s t : String) :
    lowerData (s ++ t) = lowerData s ++ lowerData t := by
  simp [lowerData, string_data_append]

/-- C1: every HTTP response is mapped to an error whose kind is determined by
the status code — 401 to AuthenticationError, 400 to ValidationError, 404 to
NotFoundError, 429 to RateLimitError, any status at least 500 to ServerError,
and any other non-2xx status to the generic API error — and in every case the
error carries the numeric status code and the response text. -/
theorem classify_status_determines_error (resp : HttpResponse) :
    (resp.status = 401 →
      errInfo (classifyResponse resp) =
        some (.authentication, some resp.status, some resp.text)) ∧
    (resp.status = 400 →
      errInfo (classifyResponse resp) =
        some (.validation, some resp.status, some resp.text)) ∧
    (resp.status = 404 →
      errInfo (classifyResponse resp) =
        some (.notFound, some resp.status, some resp.text)) ∧
    (resp.status = 429 →
      errInfo (classifyResponse resp) =
        some (.rateLimit, some resp.status, some resp.text)) ∧
    (resp.status ≥ 500 →
      errInfo (classifyResponse resp) =
        some (.server, some resp.status, some resp.text)) ∧
    ((resp.status < 200 ∨ resp.status ≥ 300) →
      resp.status ≠ 401 → resp.status ≠ 400 → resp.status ≠ 404 →
      resp.status ≠ 429 → resp.status < 500 →
      errInfo (classifyResponse resp) =
        some (.generic, some resp.status, some resp.text)) := by
  refine ⟨?_, ?_, ?_, ?_, ?_, ?_⟩
  · intro h
    simp [classifyResponse, errInfo, h]
  · intro h
    simp [classifyResponse, errInfo, h]
  · intro h
    simp [classifyResponse, errInfo, h]
  · intro h
    simp [classifyResponse, errInfo, h]
  · intro h
    have h1 : resp.status ≠ 401 := by omega
    have h2 : resp.status ≠ 400 := by omega
    have h3 : resp.status ≠ 404 := by omega
    have h4 : resp.status ≠ 429 := by omega
    simp [classifyResponse, errInfo, h, h1, h2, h3, h4]
  · intro h h1 h2 h3 h4 h5
    have h6 : ¬ resp.status ≥ 500 := by omega
    simp [classifyResponse, errInfo, h, h1, h2, h3, h4, h6]

theorem classify_status_determines_error_witness :
    errInfo (classifyResponse ⟨401, .empty, "Unauthorized"⟩) =
      some (.authentication, some 401, some "Unauthorized") ∧
    errInfo (classifyResponse ⟨400, .empty, "Bad Request"⟩) =
      some (.validation, some 400, some "Bad Request") ∧
    errInfo (classifyResponse ⟨404, .empty, "Not Found"⟩) =
      some (.notFound, some 404, some "Not Found") ∧
    errInfo (classifyResponse ⟨429, .empty, "Too Many Requests"⟩) =
      some (.rateLimit, some 429, some "Too Many Requests") ∧
    errInfo (classifyResponse ⟨500, .empty, "Internal Server Error"⟩) =
      some (.server, some 500, some "Internal Server Error") ∧
    errInfo (classifyResponse ⟨302, .empty, "Found"⟩) =
      some (.generic, some 302, some "Found") :=
  ⟨(classify_status_determines_error ⟨401, .empty, "Unauthorized"⟩).1 rfl,
   (classify_status_determines_error ⟨400, .empty, "Bad Request"⟩).2.1 rfl,
   (classify_status_determines_error ⟨404, .empty, "Not Found"⟩).2.2.1 rfl,
   (classify_status_determines_error ⟨429, .empty, "Too Many Requests"⟩).2.2.2.1 rfl,
   (classify_status_determines_error ⟨500, .empty, "Internal Server Error"⟩).2.2.2.2.1
     (by decide),
   (classify_status_determines_error ⟨302, .empty, "Found"⟩).2.2.2.2.2
     (by decide) (by decide) (by decide) (by decide) (by decide) (by decide)⟩

/-- C2: a transport connection failure raises the umbrella error — generic
kind, no status code — whose message contains the substring Connection error,
and a transport timeout raises the umbrella error — generic kind, no status
code — whose message contains the substring timeout case-insensitively. -/
theorem transport_failures_raise_umbrella (c : DUPRClient) (m : Method)
    (p : String → String) (q : Option (List (String × Json))) (b : Option Json)
    (vo : Option String) (cause : String) :
    (∃ e, (c.execute m p q b vo (.connectionFailure cause)).outcome = .error e ∧
      e.kind = .generic ∧ e.status_code = none ∧
      "Connection error".data <:+: e.message.data) ∧
    (∃ e, (c.execute m p q b vo (.timeoutFailure cause)).outcome = .error e ∧
      e.kind = .generic ∧ e.status_code = none ∧
      "timeout".data <:+: lowerData e.message) := by
  constructor
  · refine ⟨⟨.generic, "Connection error: " ++ cause, none, none⟩, rfl, rfl, rfl, ?_⟩
    rw [string_data_append]
    exact data_infix_append _ _ _ (by decide)
  · refine ⟨⟨.generic, "Request timeout: " ++ cause, none, none⟩, rfl, rfl, rfl, ?_⟩
    rw [lowerData_append]
    exact data_infix_append _ _ _ (by decide)

/-- C3: a 2xx response with an empty body decodes to the empty mapping, and a
2xx response whose body is valid JSON decodes to exactly the parsed
structure. -/
theorem success_decoding (resp : HttpResponse) (hlo : 200 ≤ resp.status)
    (hhi : resp.status < 300) :
    (resp.body = .empty → classifyResponse resp = .ok (.obj [])) ∧
    (∀ j, resp.body = .jsonBody j → classifyResponse resp = .ok j) := by
  have h1 : resp.status ≠ 401 := by omega
  have h2 : resp.status ≠ 400 := by omega
  have h3 : resp.status ≠ 404 := by omega
  have h4 : resp.status ≠ 429 := by omega
  have h5 : ¬ resp.status ≥ 500 := by omega
  have h6 : ¬ (resp.status < 200 ∨ resp.status ≥ 300) := by omega
  constructor
  · intro hb
    simp [classifyResponse, h1, h2, h3, h4, h5, h6, hb]
  · intro j hb
    simp [classifyResponse, h1, h2, h3, h4, h5, h6, hb]

theorem success_decoding_witness :
    classifyResponse ⟨200, .empty, ""⟩ = .ok (.obj []) ∧
    classifyResponse ⟨200, .jsonBody (.obj [("result", Json.num 42)]),
        "body"⟩ = .ok (.obj [("result", Json.num 42)]) :=
  ⟨(success_decoding ⟨200, .empty, ""⟩ (by decide) (by decide)).1 rfl,
   (success_decoding ⟨200, .jsonBody (.obj [("result", Json.num 42)]), "body"⟩
     (by decide) (by decide)).2 (.obj [("result", Json.num 42)]) rfl⟩

/-- C4: a 2xx response with a non-empty body that is not valid JSON raises a
generic API error, and never returns any payload in that case. -/
theorem invalid_json_on_success_is_error (resp : HttpResponse) (raw : String)
    (hlo : 200 ≤ resp.status) (hhi : resp.status < 300)
    (hb : resp.body = .invalid raw) :
    (∃ e, classifyResponse resp = .error e ∧ e.kind = .generic) ∧
    (∀ j, classifyResponse resp ≠ .ok j) := by
  have h1 : resp.status ≠ 401 := by omega
  have h2 : resp.status ≠ 400 := by omega
  have h3 : resp.status ≠ 404 := by omega
  have h4 : resp.status ≠ 429 := by omega
  have h5 : ¬ resp.status ≥ 500 := by omega
  have h6 : ¬ (resp.status < 200 ∨ resp.status ≥ 300) := by omega
  constructor
  · refine ⟨⟨.generic, "Invalid JSON response: " ++ raw, some resp.status,
      some resp.text⟩, ?_, rfl⟩
    simp [classifyResponse, h1, h2, h3, h4, h5, h6, hb]
  · intro j
    simp [classifyResponse, h1, h2, h3, h4, h5, h6, hb]

theorem invalid_json_on_success_is_error_witness :
    (∃ e, classifyResponse ⟨200, .invalid "not json", "not json"⟩ = .error e ∧
      e.kind = .generic) ∧
    (∀ j, classifyResponse ⟨200, .invalid "not json", "not json"⟩ ≠ .ok j) :=
  invalid_json_on_success_is_error ⟨200, .invalid "not json", "not json"⟩
    "not json" (by decide) (by decide) rfl

/-- C5: request headers always include Content-Type and Accept as
application/json; the Authorization header is present exactly when a bearer
token is set, equal to Bearer followed by the token most recently set, so a
call made after set_bearer_token with t2 sends Bearer t2 even when the client
was constructed with t1. -/
theorem headers_contract (c : DUPRClient) :
    c.get_headers.lookup "Content-Type" = some "application/json" ∧
    c.get_headers.lookup "Accept" = some "application/json" ∧
    (∀ tok, c.bearer_token = some tok →
      c.get_headers.lookup "Authorization" = some ("Bearer " ++ tok)) ∧
    (c.bearer_token = none → c.get_headers.lookup "Authorization" = none) ∧
    (∀ m p q b vo tr t2,
      ((c.set_bearer_token t2).execute m p q b vo tr).request.headers =
        (c.set_bearer_token t2).get_headers ∧
      ((c.set_bearer_token t2).execute m p q b vo tr).request.headers.lookup
        "Authorization" = some ("Bearer " ++ t2)) := by
  refine ⟨?_, ?_, ?_, ?_, ?_⟩
  · cases hbt : c.bearer_token <;>
      simp [DUPRClient.get_headers, hbt, List.lookup]
  · cases hbt : c.bearer_token <;>
      simp [DUPRClient.get_headers, hbt, List.lookup]
  · intro tok hbt
    simp [DUPRClient.get_headers, hbt, List.lookup]
  · intro hbt
    simp [DUPRClient.get_headers, hbt, List.lookup]
  · intro m p q b vo tr t2
    exact ⟨rfl, by
      simp [DUPRClient.execute, DUPRClient.set_bearer_token,
        DUPRClient.get_headers, List.lookup]⟩

theorem headers_contract_witness :
    (DUPRClient.init (some "t1")).get_headers.lookup "Content-Type" =
      some "application/json" ∧
    (DUPRClient.init (some "t1")).get_headers.lookup "Authorization" =
      some ("Bearer " ++ "t1") ∧
    (DUPRClient.init none).get_headers.lookup "Authorization" = none ∧
    (((DUPRClient.init (some "t1")).set_bearer_token "t2").execute .GET
        userProfilePath none none none
        (.response ⟨200, .empty, ""⟩)).request.headers.lookup "Authorization" =
      some ("Bearer " ++ "t2") :=
  ⟨(headers_contract (DUPRClient.init (some "t1"))).1,
   (headers_contract (DUPRClient.init (some "t1"))).2.2.1 "t1" rfl,
   (headers_contract (DUPRClient.init none)).2.2.2.1 rfl,
   ((headers_contract (DUPRClient.init (some "t1"))).2.2.2.2 .GET
     userProfilePath none none none (.response ⟨200, .empty, ""⟩) "t2").2⟩

/-- C6: the request URL is the base URL concatenated with the path whose
version segment is the per-call override when one is supplied and the
configured version otherwise, and the call leaves the whole client
configuration unchanged. -/
theorem url_version_and_frame (c : DUPRClient) (m : Method)
    (p : String → String) (q : Option (List (String × Json))) (b : Option Json)
    (vo : Option String) (t : TransportOutcome) :
    (c.execute m p q b vo t).request.url = c.base_url ++ p (vo.getD c.version) ∧
    (∀ v, vo = some v →
      (c.execute m p q b vo t).request.url = c.base_url ++ p v) ∧
    (vo = none →
      (c.execute m p q b vo t).request.url = c.base_url ++ p c.version) ∧
    (c.execute m p q b vo t).client_after = c := by
  refine ⟨rfl, ?_, ?_, rfl⟩
  · intro v hv
    simp [DUPRClient.execute, hv]
  · intro hv
    simp [DUPRClient.execute, hv]

theorem url_version_and_frame_witness :
    ((DUPRClient.init (some "t1")).execute .GET userProfilePath none none
        (some "v2.0") (.response ⟨200, .empty, ""⟩)).request.url =
      (DUPRClient.init (some "t1")).base_url ++ userProfilePath "v2.0" ∧
    ((DUPRClient.init (some "t1")).execute .GET userProfilePath none none none
        (.response ⟨200, .empty, ""⟩)).request.url =
      (DUPRClient.init (some "t1")).base_url ++
        userProfilePath (DUPRClient.init (some "t1")).version ∧
    ((DUPRClient.init (some "t1")).execute .GET userProfilePath none none
        (some "v2.0") (.response ⟨200, .empty, ""⟩)).client_after =
      DUPRClient.init (some "t1") :=
  ⟨((url_version_and_frame (DUPRClient.init (some "t1")) .GET userProfilePath
      none none (some "v2.0") (.response ⟨200, .empty, ""⟩)).2.1 "v2.0" rfl),
   ((url_version_and_frame (DUPRClient.init (some "t1")) .GET userProfilePath
      none none none (.response ⟨200, .empty, ""⟩)).2.2.1 rfl),
   (url_version_and_frame (DUPRClient.init (some "t1")) .GET userProfilePath
      none none (some "v2.0") (.response ⟨200, .empty, ""⟩)).2.2.2⟩

/-- C7: search_matches with player_id 5, limit 20 and offset 0 sends a POST
request whose JSON body is exactly the mapping with playerId 5, limit 20 and
offset 0 — offset is present with value 0, and clubId and eventId are absent
because those filters were not supplied. -/
theorem search_matches_body_exact (c : DUPRClient) (vo : Option String)
    (t : TransportOutcome) :
    (search_matches c (some 5) none none 20 0 vo t).request.method = .POST ∧
    (search_matches c (some 5) none none 20 0 vo t).request.json =
      some (.obj [("playerId", Json.num 5), ("limit", Json.num 20),
        ("offset", Json.num 0)]) ∧
    (searchMatchesBody (some 5) none none 20 0).lookup "offset" =
      some (Json.num 0) ∧
    (searchMatchesBody (some 5) none none 20 0).lookup "clubId" = none ∧
    (searchMatchesBody (some 5) none none 20 0).lookup "eventId" = none :=
  ⟨rfl, rfl, rfl, rfl, rfl⟩

/-- C8: every call produces exactly one outcome — either a decoded payload or
a single typed error, never both and never neither — and the namespace
operations return the outcome of the Executor unchanged, catching nothing. -/
theorem single_outcome_and_propagation (c : DUPRClient) (m : Method)
    (p : String → String) (q : Option (List (String × Json))) (b : Option Json)
    (vo : Option String) (t : TransportOutcome) (pid cid eid : Option Int)
    (lim off : Int) :
    (((∃ j, (c.execute m p q b vo t).outcome = .ok j) ∧
        ¬ ∃ e, (c.execute m p q b vo t).outcome = .error e) ∨
      ((∃ e, (c.execute m p q b vo t).outcome = .error e) ∧
        ¬ ∃ j, (c.execute m p q b vo t).outcome = .ok j)) ∧
    (get_profile c vo t).outcome =
      (c.execute .GET userProfilePath none none vo t).outcome ∧
    (search_matches c pid cid eid lim off vo t).outcome =
      (c.execute .POST matchSearchPath none
        (some (.obj (searchMatchesBody pid cid eid lim off))) vo t).outcome := by
  refine ⟨?_, rfl, rfl⟩
  cases ho : (c.execute m p q b vo t).outcome with
  | ok j => exact Or.inl ⟨⟨j, rfl⟩, by simp⟩
  | error e => exact Or.inr ⟨⟨e, rfl⟩, by simp⟩

/-- C9: a call consumes exactly one prepared transport outcome from the
stream, whatever that outcome is — success, HTTP error status or transport
failure — and leaves the rest untouched: no retry, no re-send. -/
theorem exactly_one_attempt (c : DUPRClient) (m : Method) (p : String → String)
    (q : Option (List (String × Json))) (b : Option Json) (vo : Option String)
    (o : TransportOutcome) (rest : List TransportOutcome) :
    c.executeStream m p q b vo (o :: rest) =
      (some (c.execute m p q b vo o), rest) :=
  rfl

/-- C10: a client constructed with only an optional token has base_url
https://backend.mydupr.com, version v1.0, timeout 30 and, when no token is
given, bearer_token none; in that default no-token state header construction
produces no Authorization header. -/
theorem default_client_configuration :
    (DUPRClient.init none).base_url = "https://backend.mydupr.com" ∧
    (DUPRClient.init none).version = "v1.0" ∧
    (DUPRClient.init none).timeout = 30 ∧
    (DUPRClient.init none).bearer_token = none ∧
    (∀ tok, (DUPRClient.init tok).base_url = "https://backend.mydupr.com" ∧
      (DUPRClient.init tok).version = "v1.0" ∧
      (DUPRClient.init tok).timeout = 30 ∧
      (DUPRClient.init tok).bearer_token = tok) ∧
    (DUPRClient.init none).get_headers.lookup "Authorization" = none :=
  ⟨rfl, rfl, rfl, rfl, fun _ => ⟨rfl, rfl, rfl, rfl⟩, rfl⟩

end DuprApi
